import Mathlib

/-!
Shallow embedding of the chat session state manager implemented in
src/src/components/Chatbot.tsx (the later revision of the component, the one
with conversationId, messageId and rating fields).

Modelling conventions:
* `timestamp` is stored in the source as an ISO-8601 string produced by
  `new Date().toISOString()` and compared via `new Date(ts).getTime()`;
  this pair is order-isomorphic to the numeric epoch time, so timestamps are
  modelled as `Nat` (epoch milliseconds).
* `uuidv4()` and `new Date()` are nondeterministic inputs; each operation that
  consumes them takes the fresh id / current time as an explicit argument.
* Network effects are reified: an operation returns, next to the new state,
  the list of HTTP calls it issues.  The source wraps every `fetch` in
  `try/catch` and its state transitions do not depend on the outcome, which is
  modelled by an explicit outcome argument that the transition ignores.
* `setTimeout` is reified as a `PendingReply` record carrying the delay and
  the captured `newLocalId`; firing the timer is a separate transition.
-/

namespace Chatbot

/-- Mirrors the TypeScript union type of the `feedback` field,
which is one of the strings up, down, or the empty string. -/
inductive Feedback where
  | up
  | down
  | blank
  deriving DecidableEq

/-- Mirrors the `ChatMessage` interface of the source (later revision). -/
structure ChatMessage where
  localId : Nat
  conversationId : String
  messageId : String
  timestamp : Nat
  text : String
  isUser : Bool
  feedback : Feedback
  comment : String
  rating : Option Nat
  deriving DecidableEq

/-- The component state held in the React hooks: messages, inputText,
isThinking, showModal, feedbackComment, feedbackRating, selectedLocalId. -/
structure ChatState where
  messages : List ChatMessage
  inputText : String
  isThinking : Bool
  showModal : Bool
  feedbackComment : String
  feedbackRating : Option Nat
  selectedLocalId : Option Nat
  deriving DecidableEq

/-- One HTTP call issued against the backend, as in the source: a GET for the
conversation, a POST persisting a message, or a PUT updating feedback. -/
inductive NetCall where
  | get (conversationId : String)
  | post (body : ChatMessage)
  | put (conversationId : String) (messageId : String)
      (feedback : Feedback) (comment : String) (rating : Option Nat)
  deriving DecidableEq

/-- A `setTimeout` scheduled by `handleSend`: the delay in milliseconds and
the `newLocalId` value captured by the closure. -/
structure PendingReply where
  delayMs : Nat
  baseLocalId : Nat
  deriving DecidableEq

/-- `createDefaultBotMessage` of the source, with the uuid and current time
passed in explicitly. -/
def createDefaultBotMessage (freshId : String) (now : Nat) : ChatMessage :=
  { localId := 1
    conversationId := "conversation_1"
    messageId := freshId
    timestamp := now
    text := "Hello! What can I do to help you?"
    isUser := false
    feedback := Feedback.blank
    comment := ""
    rating := none }

/-- `handleClear` of the source: clears the input text and replaces the whole
message list with a single fresh greeting. -/
def handleClear (s : ChatState) (freshId : String) (now : Nat) : ChatState :=
  { s with inputText := "", messages := [createDefaultBotMessage freshId now] }

/-- The whitespace characters removed by JavaScript `String.prototype.trim`
(the ones expressible in user input). -/
def isJsWhitespace (c : Char) : Bool :=
  c == ' ' || c == '\t' || c == '\n' || c == '\r' || c == '\x0b' || c == '\x0c'

/-- JavaScript `String.prototype.trim`: strips leading and trailing
whitespace. -/
def jsTrim (s : String) : String :=
  String.mk (((s.toList.dropWhile isJsWhitespace).reverse.dropWhile
    isJsWhitespace).reverse)

/-- `Math.max(...messages.map(m => m.localId))` over a nonempty list of
nonnegative ids equals the fold of `max` with base 0. -/
def maxLocalId (l : List ChatMessage) : Nat :=
  (l.map fun m => m.localId).foldr max 0

/-- Result of `handleSend`: the new component state, the HTTP calls issued
synchronously, and the timers scheduled. -/
structure SendResult where
  state : ChatState
  calls : List NetCall
  pending : List PendingReply
  deriving DecidableEq

/-- `handleSend` of the source: a no-op when the trimmed input is empty;
otherwise builds the user message with `localId` = `Math.max` of the current
ids plus one (or 1 on an empty list), appends it, POSTs it, clears the input,
sets the thinking flag and schedules the mock bot reply after 1000 ms. -/
def handleSend (s : ChatState) (freshMsgId : String) (now : Nat) : SendResult :=
  if jsTrim s.inputText = "" then
    { state := s, calls := [], pending := [] }
  else
    let newLocalId :=
      if s.messages.isEmpty then 1 else maxLocalId s.messages + 1
    let userMessage : ChatMessage :=
      { localId := newLocalId
        conversationId := "conversation_1"
        messageId := freshMsgId
        timestamp := now
        text := s.inputText
        isUser := true
        feedback := Feedback.blank
        comment := ""
        rating := none }
    { state := { s with
        messages := s.messages ++ [userMessage]
        inputText := ""
        isThinking := true }
      calls := [NetCall.post userMessage]
      pending := [{ delayMs := 1000, baseLocalId := newLocalId }] }

/-- The canned bot reply built inside the `setTimeout` callback of
`handleSend`; `botLocalId = newLocalId + 1` uses the id captured at send
time, not the list current when the timer fires. -/
def mkBotMessage (baseLocalId : Nat) (freshMsgId : String) (now : Nat) :
    ChatMessage :=
  { localId := baseLocalId + 1
    conversationId := "conversation_1"
    messageId := freshMsgId
    timestamp := now
    text := "Thank you for your message. I'm processing your request."
    isUser := false
    feedback := Feedback.blank
    comment := ""
    rating := none }

/-- Firing the `setTimeout` callback scheduled by `handleSend`: appends the
canned bot reply, POSTs it, clears the thinking flag. -/
def fireReply (s : ChatState) (p : PendingReply) (freshMsgId : String)
    (now : Nat) : ChatState × List NetCall :=
  let botMessage := mkBotMessage p.baseLocalId freshMsgId now
  ({ s with messages := s.messages ++ [botMessage], isThinking := false },
    [NetCall.post botMessage])

/-- The two thumbs, the only `newFeedback` values passed to
`handleOpenFeedbackDialog` by `handleThumbUpClick` / `handleThumbDownClick`. -/
inductive Thumb where
  | up
  | down
  deriving DecidableEq

/-- The `feedback` string written by a thumb click. -/
def Thumb.toFeedback : Thumb → Feedback
  | Thumb.up => Feedback.up
  | Thumb.down => Feedback.down

/-- `handleOpenFeedbackDialog` of the source: records the selected id, opens
the dialog, presets the rating (10 for thumbs-up, 1 for thumbs-down), empties
the comment, and immediately writes the clicked feedback value onto the
matching message. -/
def handleOpenFeedbackDialog (s : ChatState) (localId : Nat) (t : Thumb) :
    ChatState :=
  { s with
    selectedLocalId := some localId
    showModal := true
    feedbackRating := some (if t = Thumb.up then 10 else 1)
    feedbackComment := ""
    messages := s.messages.map fun m =>
      if m.localId == localId then { m with feedback := t.toFeedback } else m }

/-- `handleCloseModal` of the source: hides the dialog and resets the three
transient dialog fields (comment to empty, rating to the default 5, selected
id to null); the message list is untouched. -/
def handleCloseModal (s : ChatState) : ChatState :=
  { s with
    showModal := false
    feedbackComment := ""
    feedbackRating := some 5
    selectedLocalId := none }

/-- `handleSubmitFeedback` of the source.  When no message is selected it
only closes the dialog.  Otherwise it writes the dialog comment and rating
onto the matching message, issues one PUT built from the (pre-update) stored
message plus the dialog fields, and closes the dialog.  The PUT sits in a
`try/catch` whose outcome does not influence the state transition, modelled
by the ignored `putOk` argument. -/
def handleSubmitFeedback (s : ChatState) (_putOk : Bool) :
    ChatState × List NetCall :=
  match s.selectedLocalId with
  | none => (handleCloseModal s, [])
  | some sel =>
    let s1 := { s with
      messages := s.messages.map fun m =>
        if m.localId == sel then
          { m with comment := s.feedbackComment, rating := s.feedbackRating }
        else m }
    let calls :=
      match s.messages.find? (fun m => m.localId == sel) with
      | some message =>
        [NetCall.put message.conversationId message.messageId
          message.feedback s.feedbackComment s.feedbackRating]
      | none => []
    (handleCloseModal s1, calls)

/-- One record of the JSON array returned by
GET /messages?conversationId=conversation_1; optional fields are absent or
present as in the remote schema. -/
structure RemoteRecord where
  conversationId : String
  messageId : String
  timestamp : Nat
  text : String
  isUser : Bool
  feedback : Option Feedback
  comment : Option String
  rating : Option Nat
  deriving DecidableEq

/-- The `data.map((item, index) => ...)` conversion in `fetchMessages`:
`localId = index + 2`, absent feedback and comment default to empty, and
`item.rating ? Number(item.rating) : null` maps a zero or absent rating to
null. -/
def convertRecord (index : Nat) (r : RemoteRecord) : ChatMessage :=
  { localId := index + 2
    conversationId := r.conversationId
    messageId := r.messageId
    timestamp := r.timestamp
    text := r.text
    isUser := r.isUser
    feedback := r.feedback.getD Feedback.blank
    comment := r.comment.getD ""
    rating := match r.rating with
      | some n => if n == 0 then none else some n
      | none => none }

/-- Index-aware map over the fetched array. -/
def convertRecords (data : List RemoteRecord) : List ChatMessage :=
  data.enum.map fun p => convertRecord p.1 p.2

/-- One step of the stable insertion sort modelling
`Array.prototype.sort` with the comparator
`(a, b) => getTime(a.timestamp) - getTime(b.timestamp)`. -/
def insertByTs (m : ChatMessage) : List ChatMessage → List ChatMessage
  | [] => [m]
  | x :: xs =>
    if m.timestamp < x.timestamp then m :: x :: xs else x :: insertByTs m xs

/-- Stable sort by ascending timestamp. -/
def sortByTs : List ChatMessage → List ChatMessage
  | [] => []
  | x :: xs => insertByTs x (sortByTs xs)

/-- The message list installed by `fetchMessages` on a successful fetch:
`[createDefaultBotMessage()].concat(sorted converted records)`. -/
def fetchMessagesSuccess (greeting : ChatMessage) (data : List RemoteRecord) :
    List ChatMessage :=
  greeting :: sortByTs (convertRecords data)

/-- `fetchMessages` of the source, over the reified outcome of
`fetch` + `response.json()`: on success it replaces the message list with the
fresh greeting followed by the sorted records; a rejection or a non-JSON body
lands in the `catch`, which only logs (the returned Bool) and leaves the
state untouched. -/
def fetchMessages (s : ChatState) (result : Except String (List RemoteRecord))
    (freshId : String) (now : Nat) : ChatState × Bool :=
  match result with
  | Except.ok data =>
    ({ s with
        messages := fetchMessagesSuccess (createDefaultBotMessage freshId now)
          data },
      false)
  | Except.error _ => (s, true)

/-- Modelled from the spec: `exportCsv` is absent from the source under src/
(only later revisions of the widget have it); per spec section 4.6 a text
field is escaped by doubling embedded quote characters and wrapping the field
in quotes. -/
def escapeCsvField (text : String) : String :=
  "\"" ++ (String.mk (text.toList.foldr
    (fun c acc => if c == '"' then '"' :: '"' :: acc else c :: acc) [])) ++ "\""

/-- Modelled from the spec: the fixed CSV column header of section 4.6. -/
def csvHeader : String :=
  "localId, timestamp, author, text, feedback, comment, rating"

/-- The `feedback` field as serialized (its string value in the source). -/
def Feedback.serialize : Feedback → String
  | Feedback.up => "up"
  | Feedback.down => "down"
  | Feedback.blank => ""

/-- Modelled from the spec: one CSV row per message, columns in header
order, the text field quote-escaped. -/
def csvRow (m : ChatMessage) : String :=
  toString m.localId ++ "," ++ toString m.timestamp ++ ","
    ++ (if m.isUser then "user" else "bot") ++ ","
    ++ escapeCsvField m.text ++ "," ++ m.feedback.serialize ++ ","
    ++ m.comment ++ ","
    ++ (match m.rating with | some n => toString n | none => "")

/-- Modelled from the spec: `exportCsv` synchronously serializes the
in-memory list (header row then one row per message in display order, joined
by newline) and issues no network call; the returned call list reifies the
absence of remote interaction. -/
def exportCsvOp (messages : List ChatMessage) : String × List NetCall :=
  (String.intercalate "\n" (csvHeader :: messages.map csvRow), [])

/-! Concrete states used by witnesses and counterexamples. -/

/-- A component state with all dialog fields at their initial values. -/
def mkState (msgs : List ChatMessage) (input : String) : ChatState :=
  { messages := msgs
    inputText := input
    isThinking := false
    showModal := false
    feedbackComment := ""
    feedbackRating := some 5
    selectedLocalId := none }

/-- A sample persisted user message. -/
def userMsgEx : ChatMessage :=
  { localId := 2
    conversationId := "conversation_1"
    messageId := "u-ex"
    timestamp := 10
    text := "hi"
    isUser := true
    feedback := Feedback.blank
    comment := ""
    rating := none }

/-- A sample bot reply eligible for feedback. -/
def botMsgEx : ChatMessage :=
  { localId := 3
    conversationId := "conversation_1"
    messageId := "b-ex"
    timestamp := 20
    text := "Thank you for your message. I'm processing your request."
    isUser := false
    feedback := Feedback.down
    comment := ""
    rating := none }

/-! Helper lemmas. -/

/-- Every element of a list of naturals is bounded by the `max` fold. -/
lemma le_foldr_max (x : Nat) (l : List Nat) (hx : x ∈ l) :
    x ≤ l.foldr max 0 := by
  induction l with
  | nil => cases hx
  | cons a t ih =>
    rcases List.mem_cons.mp hx with h | h
    · subst h
      exact Nat.le_max_left _ _
    · exact Nat.le_trans (ih h) (Nat.le_max_right _ _)

/-- A fully whitespace string trims to the empty string. -/
lemma jsTrim_all_ws (s : String) (h : ∀ c ∈ s.toList, isJsWhitespace c = true) :
    jsTrim s = "" := by
  unfold jsTrim
  have h1 : s.toList.dropWhile isJsWhitespace = [] :=
    List.dropWhile_eq_nil_iff.mpr h
  rw [h1]
  rfl

/-- `newLocalId` of `handleSend` is always one more than the running
maximum (on the empty list both sides are 1). -/
lemma newLocalId_eq (l : List ChatMessage) :
    (if l.isEmpty then 1 else maxLocalId l + 1) = maxLocalId l + 1 := by
  cases l with
  | nil => simp [maxLocalId]
  | cons a t => rfl

/-! Claim C1. -/

/-- Claim C1 counterexample: starting from a conversation containing the
greeting and one user message (so the clear control is enabled), a clear
does produce a single-message list, but the conversationId of the new
greeting equals the conversationId in use before the call (the constant
conversation 1), refuting that a different conversationId is assigned. -/
theorem clear_keeps_conversationId :
    ((handleClear (mkState [createDefaultBotMessage "g1" 0, userMsgEx] "")
        "g2" 50).messages.map fun m => m.conversationId) = ["conversation_1"]
    ∧ ((mkState [createDefaultBotMessage "g1" 0, userMsgEx] "").messages.map
        fun m => m.conversationId) = ["conversation_1", "conversation_1"] := by
  exact ⟨rfl, rfl⟩

/-- Claim C1 (amended): for every state, `handleClear` yields a list of
exactly one freshly generated greeting message (fresh messageId and
timestamp) and clears the input, while the conversationId stays the fixed
constant conversation 1 rather than being replaced by a new one. -/
theorem clear_single_greeting (s : ChatState) (freshId : String) (now : Nat) :
    (handleClear s freshId now).messages = [createDefaultBotMessage freshId now]
    ∧ (handleClear s freshId now).inputText = ""
    ∧ ((handleClear s freshId now).messages.map fun m => m.conversationId)
        = ["conversation_1"]
    ∧ (createDefaultBotMessage freshId now).messageId = freshId
    ∧ (createDefaultBotMessage freshId now).timestamp = now
    ∧ (createDefaultBotMessage freshId now).isUser = false := by
  exact ⟨rfl, rfl, rfl, rfl, rfl, rfl⟩

/-! Claim C5. -/

/-- Claim C5: sending while the input text is empty or all whitespace is a
complete no-op: the state (message list included) is unchanged, no HTTP call
is issued and no timer is scheduled. -/
theorem send_blank_noop (s : ChatState) (fid : String) (now : Nat)
    (h : ∀ c ∈ s.inputText.toList, isJsWhitespace c = true) :
    handleSend s fid now = { state := s, calls := [], pending := [] } := by
  unfold handleSend
  rw [if_pos (jsTrim_all_ws s.inputText h)]

/-- Claim C5 witness at a concrete whitespace-only input. -/
theorem send_blank_noop_witness :
    (∀ c ∈ (mkState [createDefaultBotMessage "g1" 0] "  \t\n ").inputText.toList,
      isJsWhitespace c = true)
    ∧ handleSend (mkState [createDefaultBotMessage "g1" 0] "  \t\n ") "u1" 5
      = { state := mkState [createDefaultBotMessage "g1" 0] "  \t\n "
          calls := []
          pending := [] } :=
  ⟨by decide, send_blank_noop (mkState [createDefaultBotMessage "g1" 0] "  \t\n ")
    "u1" 5 (by decide)⟩

/-! Claim C7. -/

/-- Claim C7: when the conversation-load fetch fails (rejection or non-JSON
body, both reified as the error case), the error is logged (the Bool) and
the state is untouched; in particular a list holding just the greeting stays
exactly that list, and no field a user could see is altered. -/
theorem fetch_failure_keeps_greeting (s : ChatState) (e fid : String)
    (now : Nat) (g : ChatMessage) (hg : s.messages = [g]) :
    fetchMessages s (Except.error e) fid now = (s, true)
    ∧ (fetchMessages s (Except.error e) fid now).1.messages = [g] := by
  exact ⟨rfl, hg⟩

/-- Claim C7 witness: a failed fetch on the initial single-greeting state. -/
theorem fetch_failure_keeps_greeting_witness :
    (mkState [createDefaultBotMessage "g1" 0] "").messages
      = [createDefaultBotMessage "g1" 0]
    ∧ (fetchMessages (mkState [createDefaultBotMessage "g1" 0] "")
        (Except.error "network down") "g2" 9
        = (mkState [createDefaultBotMessage "g1" 0] "", true)
      ∧ (fetchMessages (mkState [createDefaultBotMessage "g1" 0] "")
          (Except.error "network down") "g2" 9).1.messages
        = [createDefaultBotMessage "g1" 0]) :=
  ⟨rfl, fetch_failure_keeps_greeting (mkState [createDefaultBotMessage "g1" 0] "")
    "network down" "g2" 9 (createDefaultBotMessage "g1" 0) rfl⟩

/-! Claim C10. -/

/-- Claim C10: submitting the feedback dialog with no message selected only
closes the dialog and resets the transient fields; the message list is
unchanged and no HTTP call is issued, whatever the (ignored) remote
outcome. -/
theorem submit_no_selection (s : ChatState) (putOk : Bool)
    (h : s.selectedLocalId = none) :
    handleSubmitFeedback s putOk = (handleCloseModal s, [])
    ∧ (handleSubmitFeedback s putOk).1.messages = s.messages
    ∧ (handleSubmitFeedback s putOk).2 = []
    ∧ (handleSubmitFeedback s putOk).1.showModal = false
    ∧ (handleSubmitFeedback s putOk).1.feedbackComment = ""
    ∧ (handleSubmitFeedback s putOk).1.feedbackRating = some 5
    ∧ (handleSubmitFeedback s putOk).1.selectedLocalId = none := by
  simp [handleSubmitFeedback, h, handleCloseModal]

/-- Claim C10 witness at a concrete state with the dialog open but no
selected message. -/
theorem submit_no_selection_witness :
    ({ mkState [createDefaultBotMessage "g1" 0, botMsgEx] "" with
        showModal := true }).selectedLocalId = none
    ∧ handleSubmitFeedback
        { mkState [createDefaultBotMessage "g1" 0, botMsgEx] "" with
          showModal := true } true
      = (handleCloseModal
          { mkState [createDefaultBotMessage "g1" 0, botMsgEx] "" with
            showModal := true }, []) :=
  ⟨rfl, (submit_no_selection
    { mkState [createDefaultBotMessage "g1" 0, botMsgEx] "" with
      showModal := true } true rfl).1⟩

/-! Claim C8. -/

/-- Claim C8: after a thumbs click opened the dialog for some localId,
canceling the dialog leaves the message list exactly as the click left it:
the considered message keeps the clicked feedback value when it was the
target (its prior feedback otherwise), its comment and rating are unchanged
from before the dialog opened, and only the transient dialog fields are
cleared. -/
theorem cancel_dialog_preserves_message (s : ChatState) (lid : Nat) (t : Thumb)
    (m : ChatMessage) (hm : m ∈ s.messages) :
    (handleCloseModal (handleOpenFeedbackDialog s lid t)).messages
      = (handleOpenFeedbackDialog s lid t).messages
    ∧ (∃ m2 ∈ (handleCloseModal (handleOpenFeedbackDialog s lid t)).messages,
        m2.messageId = m.messageId ∧ m2.comment = m.comment
        ∧ m2.rating = m.rating
        ∧ (m.localId = lid → m2.feedback = t.toFeedback)
        ∧ (m.localId ≠ lid → m2.feedback = m.feedback))
    ∧ (handleCloseModal (handleOpenFeedbackDialog s lid t)).showModal = false
    ∧ (handleCloseModal (handleOpenFeedbackDialog s lid t)).feedbackComment = ""
    ∧ (handleCloseModal (handleOpenFeedbackDialog s lid t)).selectedLocalId
        = none := by
  refine ⟨rfl, ?_, rfl, rfl, rfl⟩
  refine ⟨if m.localId == lid then { m with feedback := t.toFeedback } else m,
    ?_, ?_, ?_, ?_, ?_, ?_⟩
  · exact List.mem_map_of_mem
      (fun x => if x.localId == lid then { x with feedback := t.toFeedback }
        else x) hm
  · by_cases h : m.localId = lid <;> simp [h]
  · by_cases h : m.localId = lid <;> simp [h]
  · by_cases h : m.localId = lid <;> simp [h]
  · intro h
    simp [h]
  · intro h
    simp [h]

/-- Claim C8 witness: thumbs-down on the sample bot message, then cancel. -/
theorem cancel_dialog_preserves_message_witness :
    botMsgEx ∈ (mkState [createDefaultBotMessage "g1" 0, botMsgEx] "").messages
    ∧ ((handleCloseModal (handleOpenFeedbackDialog
          (mkState [createDefaultBotMessage "g1" 0, botMsgEx] "") 3
          Thumb.down)).messages
        = (handleOpenFeedbackDialog
            (mkState [createDefaultBotMessage "g1" 0, botMsgEx] "") 3
            Thumb.down).messages
      ∧ (∃ m2 ∈ (handleCloseModal (handleOpenFeedbackDialog
            (mkState [createDefaultBotMessage "g1" 0, botMsgEx] "") 3
            Thumb.down)).messages,
          m2.messageId = botMsgEx.messageId ∧ m2.comment = botMsgEx.comment
          ∧ m2.rating = botMsgEx.rating
          ∧ (botMsgEx.localId = 3 → m2.feedback = Thumb.down.toFeedback)
          ∧ (botMsgEx.localId ≠ 3 → m2.feedback = botMsgEx.feedback))
      ∧ (handleCloseModal (handleOpenFeedbackDialog
          (mkState [createDefaultBotMessage "g1" 0, botMsgEx] "") 3
          Thumb.down)).showModal = false
      ∧ (handleCloseModal (handleOpenFeedbackDialog
          (mkState [createDefaultBotMessage "g1" 0, botMsgEx] "") 3
          Thumb.down)).feedbackComment = ""
      ∧ (handleCloseModal (handleOpenFeedbackDialog
          (mkState [createDefaultBotMessage "g1" 0, botMsgEx] "") 3
          Thumb.down)).selectedLocalId = none) :=
  ⟨by decide, cancel_dialog_preserves_message
    (mkState [createDefaultBotMessage "g1" 0, botMsgEx] "") 3 Thumb.down
    botMsgEx (by decide)⟩

/-! Claim C9. -/

/-- Claim C9: a successful send schedules exactly one mock reply with a
fixed 1000 ms delay; firing it, on whatever state holds by then, appends
exactly one bot message with the canned text and clears the thinking
indicator, returning the reply machinery to idle. -/
theorem mock_reply_appends_one (s tstate : ChatState) (fid bfid : String)
    (now bnow : Nat) (hblank : jsTrim s.inputText ≠ "") :
    ∃ p, (handleSend s fid now).pending = [p] ∧ p.delayMs = 1000
      ∧ (fireReply tstate p bfid bnow).1.messages
          = tstate.messages ++ [mkBotMessage p.baseLocalId bfid bnow]
      ∧ (fireReply tstate p bfid bnow).1.messages.length
          = tstate.messages.length + 1
      ∧ (mkBotMessage p.baseLocalId bfid bnow).isUser = false
      ∧ (mkBotMessage p.baseLocalId bfid bnow).text
          = "Thank you for your message. I'm processing your request."
      ∧ (fireReply tstate p bfid bnow).1.isThinking = false := by
  unfold handleSend
  rw [if_neg hblank]
  exact ⟨_, rfl, rfl, rfl, by simp [fireReply], rfl, rfl, rfl⟩

/-- Claim C9 witness: sending "hello" from the initial state and firing the
scheduled reply on the state the send produced. -/
theorem mock_reply_appends_one_witness :
    jsTrim (mkState [createDefaultBotMessage "g1" 0] "hello").inputText ≠ ""
    ∧ ∃ p, (handleSend (mkState [createDefaultBotMessage "g1" 0] "hello")
          "u1" 40).pending = [p] ∧ p.delayMs = 1000
      ∧ (fireReply (handleSend (mkState [createDefaultBotMessage "g1" 0]
            "hello") "u1" 40).state p "b1" 1040).1.messages
          = (handleSend (mkState [createDefaultBotMessage "g1" 0] "hello")
              "u1" 40).state.messages
            ++ [mkBotMessage p.baseLocalId "b1" 1040]
      ∧ (fireReply (handleSend (mkState [createDefaultBotMessage "g1" 0]
            "hello") "u1" 40).state p "b1" 1040).1.messages.length
          = (handleSend (mkState [createDefaultBotMessage "g1" 0] "hello")
              "u1" 40).state.messages.length + 1
      ∧ (mkBotMessage p.baseLocalId "b1" 1040).isUser = false
      ∧ (mkBotMessage p.baseLocalId "b1" 1040).text
          = "Thank you for your message. I'm processing your request."
      ∧ (fireReply (handleSend (mkState [createDefaultBotMessage "g1" 0]
            "hello") "u1" 40).state p "b1" 1040).1.isThinking = false :=
  ⟨by decide, mock_reply_appends_one
    (mkState [createDefaultBotMessage "g1" 0] "hello")
    (handleSend (mkState [createDefaultBotMessage "g1" 0] "hello") "u1"
      40).state "u1" "b1" 40 1040 (by decide)⟩

/-! Claim C3. -/

/-- Claim C3: when the dialog is submitted for the selected message m (the
one `messages.find` locates for the selected id), the dialog comment and
rating are written onto m in the local list, exactly one PUT is issued
carrying m's conversationId and messageId together with the stored feedback
value and the dialog comment and rating, and the dialog is closed with all
transient fields reset — identically whether the remote call succeeds or
fails. -/
theorem submit_feedback_selected (s : ChatState) (m : ChatMessage)
    (putOk : Bool)
    (hfind : s.messages.find? (fun x => x.localId == m.localId) = some m)
    (hsel : s.selectedLocalId = some m.localId) :
    (handleSubmitFeedback s putOk).2
      = [NetCall.put m.conversationId m.messageId m.feedback
          s.feedbackComment s.feedbackRating]
    ∧ { m with comment := s.feedbackComment, rating := s.feedbackRating }
        ∈ (handleSubmitFeedback s putOk).1.messages
    ∧ (handleSubmitFeedback s putOk).1.showModal = false
    ∧ (handleSubmitFeedback s putOk).1.feedbackComment = ""
    ∧ (handleSubmitFeedback s putOk).1.feedbackRating = some 5
    ∧ (handleSubmitFeedback s putOk).1.selectedLocalId = none
    ∧ handleSubmitFeedback s true = handleSubmitFeedback s false := by
  have hmem : m ∈ s.messages := List.mem_of_find?_eq_some hfind
  have himg :
      (fun x => if x.localId == m.localId then
          { x with comment := s.feedbackComment, rating := s.feedbackRating }
        else x) m
        = { m with comment := s.feedbackComment, rating := s.feedbackRating } := by
    simp
  refine ⟨?_, ?_, ?_, ?_, ?_, ?_, rfl⟩
  · simp [handleSubmitFeedback, hsel, hfind]
  · simp only [handleSubmitFeedback, hsel, handleCloseModal]
    rw [← himg]
    exact List.mem_map_of_mem _ hmem
  · simp [handleSubmitFeedback, hsel, handleCloseModal]
  · simp [handleSubmitFeedback, hsel, handleCloseModal]
  · simp [handleSubmitFeedback, hsel, handleCloseModal]
  · simp [handleSubmitFeedback, hsel, handleCloseModal]

/-- Claim C3 witness: submitting comment x and rating 3 for the sample
thumbs-down bot message. -/
theorem submit_feedback_selected_witness :
    ({ mkState [createDefaultBotMessage "g1" 0, botMsgEx] "" with
        showModal := true, feedbackComment := "x", feedbackRating := some 3,
        selectedLocalId := some 3 }).messages.find?
        (fun x => x.localId == botMsgEx.localId) = some botMsgEx
    ∧ ({ mkState [createDefaultBotMessage "g1" 0, botMsgEx] "" with
        showModal := true, feedbackComment := "x", feedbackRating := some 3,
        selectedLocalId := some 3 }).selectedLocalId = some botMsgEx.localId
    ∧ ((handleSubmitFeedback
          { mkState [createDefaultBotMessage "g1" 0, botMsgEx] "" with
            showModal := true, feedbackComment := "x",
            feedbackRating := some 3, selectedLocalId := some 3 } true).2
        = [NetCall.put botMsgEx.conversationId botMsgEx.messageId
            botMsgEx.feedback "x" (some 3)]
      ∧ { botMsgEx with comment := "x", rating := some 3 }
          ∈ (handleSubmitFeedback
              { mkState [createDefaultBotMessage "g1" 0, botMsgEx] "" with
                showModal := true, feedbackComment := "x",
                feedbackRating := some 3, selectedLocalId := some 3 }
              true).1.messages) := by
  have h := submit_feedback_selected
    { mkState [createDefaultBotMessage "g1" 0, botMsgEx] "" with
      showModal := true, feedbackComment := "x", feedbackRating := some 3,
      selectedLocalId := some 3 } botMsgEx true (by decide) (by decide)
  exact ⟨by decide, by decide, h.1, h.2.1⟩

/-! Claim C2: correctness of the timestamp sort used by the loader. -/

/-- Inserting into the timestamp order yields a permutation of consing. -/
lemma insertByTs_perm (m : ChatMessage) (l : List ChatMessage) :
    (insertByTs m l).Perm (m :: l) := by
  induction l with
  | nil => exact List.Perm.refl _
  | cons x xs ih =>
    simp only [insertByTs]
    by_cases h : m.timestamp < x.timestamp
    · rw [if_pos h]
    · rw [if_neg h]
      exact (ih.cons x).trans (List.Perm.swap m x xs)

/-- Insertion preserves sortedness by ascending timestamp. -/
lemma insertByTs_sorted (m : ChatMessage) (l : List ChatMessage)
    (h : l.Sorted fun a b => a.timestamp ≤ b.timestamp) :
    (insertByTs m l).Sorted fun a b => a.timestamp ≤ b.timestamp := by
  induction l with
  | nil =>
    simp only [insertByTs]
    exact List.sorted_singleton _
  | cons x xs ih =>
    rw [List.sorted_cons] at h
    simp only [insertByTs]
    by_cases hlt : m.timestamp < x.timestamp
    · rw [if_pos hlt]
      rw [List.sorted_cons]
      refine ⟨?_, List.sorted_cons.mpr h⟩
      intro b hb
      rcases List.mem_cons.mp hb with hb | hb
      · subst hb
        exact Nat.le_of_lt hlt
      · exact Nat.le_trans (Nat.le_of_lt hlt) (h.1 b hb)
    · rw [if_neg hlt]
      rw [List.sorted_cons]
      refine ⟨?_, ih h.2⟩
      intro b hb
      have hb2 : b = m ∨ b ∈ xs :=
        List.mem_cons.mp ((insertByTs_perm m xs).mem_iff.mp hb)
      rcases hb2 with hb2 | hb2
      · subst hb2
        exact Nat.le_of_not_lt hlt
      · exact h.1 b hb2

/-- The loader's sort is a permutation of its input. -/
lemma sortByTs_perm (l : List ChatMessage) : (sortByTs l).Perm l := by
  induction l with
  | nil => exact List.Perm.refl _
  | cons x xs ih =>
    simp only [sortByTs]
    exact (insertByTs_perm x (sortByTs xs)).trans (ih.cons x)

/-- The loader's sort output is sorted by ascending timestamp. -/
lemma sortByTs_sorted (l : List ChatMessage) :
    (sortByTs l).Sorted fun a b => a.timestamp ≤ b.timestamp := by
  induction l with
  | nil => exact List.sorted_nil
  | cons x xs ih => exact insertByTs_sorted x (sortByTs xs) ih

/-- A sample remote record at a given timestamp. -/
def recAt (mid : String) (ts : Nat) : RemoteRecord :=
  { conversationId := "conversation_1"
    messageId := mid
    timestamp := ts
    text := "remote"
    isUser := true
    feedback := none
    comment := none
    rating := none }

/-- Claim C2: on a successful load the installed list is the fresh local
greeting followed by exactly the converted remote records in ascending
timestamp order (a sorted permutation of them); in particular records
arriving at timestamps 20, 10, 30 end up, after the greeting at time 0, in
timestamp order 10, 20, 30. -/
theorem load_sorts_and_prepends_greeting :
    (∀ (s : ChatState) (data : List RemoteRecord) (fid : String) (now : Nat),
      ∃ l, (fetchMessages s (Except.ok data) fid now).1.messages
          = createDefaultBotMessage fid now :: l
        ∧ l.Perm (convertRecords data)
        ∧ l.Sorted fun a b => a.timestamp ≤ b.timestamp)
    ∧ ((fetchMessages (mkState [createDefaultBotMessage "g0" 0] "")
        (Except.ok [recAt "r2" 20, recAt "r1" 10, recAt "r3" 30])
        "g1" 0).1.messages.map fun m => m.timestamp) = [0, 10, 20, 30] := by
  constructor
  · intro s data fid now
    exact ⟨sortByTs (convertRecords data), rfl,
      sortByTs_perm (convertRecords data), sortByTs_sorted (convertRecords data)⟩
  · rfl

/-! Claim C4. -/

/-- Initial state with the input already holding the first message text. -/
def C4s0 : ChatState := mkState [createDefaultBotMessage "g1" 0] "a"

/-- After sending the first message, the user types a second one while the
mock reply is still pending. -/
def C4s1 : ChatState := { (handleSend C4s0 "u1" 10).state with inputText := "b" }

/-- After the second send, still before the first reply timer fires. -/
def C4s2 : ChatState := (handleSend C4s1 "u2" 20).state

/-- Appending the two fresh ids keeps a bounded duplicate-free id list
duplicate-free. -/
lemma nodup_append_two (L : List Nat) (M : Nat) (hnodup : L.Nodup)
    (hle : ∀ x ∈ L, x ≤ M) : (L ++ [M + 1, M + 1 + 1]).Nodup := by
  rw [List.nodup_append]
  refine ⟨hnodup, ?_, ?_⟩
  · simp only [List.nodup_cons, List.mem_singleton, List.nodup_nil, and_true,
      List.not_mem_nil, not_false_eq_true]
    omega
  · intro x hx hmem
    have hxle := hle x hx
    simp only [List.mem_cons, List.mem_singleton, List.not_mem_nil,
      or_false] at hmem
    omega

/-- Claim C4 counterexample: send a message (scheduling a reply that
captured localId 2), send another before the timer fires (taking localId 3),
then let the first timer fire: its bot reply uses the captured 2 + 1 = 3,
so the list holds two distinct messages with localId 3 — localIds are not
unique across pending timers. -/
theorem localIds_can_collide :
    (handleSend C4s0 "u1" 10).pending = [{ delayMs := 1000, baseLocalId := 2 }]
    ∧ ((fireReply C4s2 { delayMs := 1000, baseLocalId := 2 } "b1"
        1500).1.messages.map fun m => m.localId) = [1, 2, 3, 3]
    ∧ ¬ ((fireReply C4s2 { delayMs := 1000, baseLocalId := 2 } "b1"
        1500).1.messages.map fun m => m.localId).Nodup := by
  refine ⟨by decide, by decide, by decide⟩

/-- Claim C4 (amended): a send does assign the new user message a localId
one greater than the current maximum (so it is unique at the moment it is
appended), and localIds stay pairwise distinct as long as each pending reply
fires before the next send: from any state with distinct localIds, one send
followed by the firing of the reply it scheduled leaves all localIds
pairwise distinct.  Interleaving a second send before the timer fires can
produce a duplicate, as the counterexample shows. -/
theorem send_localId_fresh_sequential (s : ChatState) (fid bfid : String)
    (t1 t2 : Nat) (hblank : jsTrim s.inputText ≠ "")
    (hnodup : (s.messages.map fun m => m.localId).Nodup) :
    ((handleSend s fid t1).state.messages.getLast?.map fun m => m.localId)
      = some (maxLocalId s.messages + 1)
    ∧ ∀ p ∈ (handleSend s fid t1).pending,
        ((fireReply (handleSend s fid t1).state p bfid t2).1.messages.map
          fun m => m.localId).Nodup := by
  have hle : ∀ x ∈ s.messages.map fun m => m.localId, x ≤ maxLocalId s.messages :=
    fun x hx => le_foldr_max x _ hx
  unfold handleSend
  rw [if_neg hblank]
  simp only [newLocalId_eq]
  constructor
  · rw [List.getLast?_concat]
    rfl
  · intro p hp
    rcases List.mem_singleton.mp hp with rfl
    simp only [fireReply, mkBotMessage, List.map_append, List.append_assoc,
      List.map_cons, List.map_nil, List.singleton_append, List.nil_append]
    exact nodup_append_two _ _ hnodup hle

/-- Claim C4 amended witness: one send from the initial state, with the
reply fired before anything else happens. -/
theorem send_localId_fresh_sequential_witness :
    jsTrim (mkState [createDefaultBotMessage "g1" 0] "hi").inputText ≠ ""
    ∧ ((mkState [createDefaultBotMessage "g1" 0] "hi").messages.map
        fun m => m.localId).Nodup
    ∧ (((handleSend (mkState [createDefaultBotMessage "g1" 0] "hi") "u1"
          5).state.messages.getLast?.map fun m => m.localId)
        = some (maxLocalId
            (mkState [createDefaultBotMessage "g1" 0] "hi").messages + 1)
      ∧ ∀ p ∈ (handleSend (mkState [createDefaultBotMessage "g1" 0] "hi")
            "u1" 5).pending,
          ((fireReply (handleSend (mkState [createDefaultBotMessage "g1" 0]
              "hi") "u1" 5).state p "b1" 1005).1.messages.map
            fun m => m.localId).Nodup) :=
  ⟨by decide, by decide, send_localId_fresh_sequential
    (mkState [createDefaultBotMessage "g1" 0] "hi") "u1" "b1" 5 1005
    (by decide) (by decide)⟩

/-! Claim C6. -/

/-- A sample message whose text embeds quote characters. -/
def quotedMsgEx : ChatMessage :=
  { localId := 5
    conversationId := "conversation_1"
    messageId := "m1"
    timestamp := 100
    text := "he said \"hi\""
    isUser := false
    feedback := Feedback.up
    comment := "good"
    rating := some 7 }

/-- Claim C6 (against the spec-modelled `exportCsvOp`, the source under src/
lacking exportCsv): the serialization is synchronous and issues no network
call for any list, the header is the fixed column row, there is one row per
message in display order, the text field escapes embedded quotes by doubling
them inside a quoted field — concretely the text he said "hi" serializes to
the field "he said ""hi""" — and a sample one-message list serializes to the
expected full CSV text. -/
theorem export_csv_serializes :
    csvHeader = "localId, timestamp, author, text, feedback, comment, rating"
    ∧ escapeCsvField "he said \"hi\"" = "\"he said \"\"hi\"\"\""
    ∧ (∀ messages : List ChatMessage, (exportCsvOp messages).2 = [])
    ∧ (∀ messages : List ChatMessage,
        (exportCsvOp messages).1
          = String.intercalate "\n" (csvHeader :: messages.map csvRow))
    ∧ (∀ messages : List ChatMessage,
        (messages.map csvRow).length = messages.length)
    ∧ (exportCsvOp [quotedMsgEx]).1
      = "localId, timestamp, author, text, feedback, comment, rating\n5,100,bot,\"he said \"\"hi\"\"\",up,good,7" := by
  refine ⟨rfl, by decide, fun _ => rfl, fun _ => rfl,
    fun messages => List.length_map messages csvRow, by decide⟩

end Chatbot
